import Mathlib

/-!
Shallow embedding of `src/templates/resources/scripts/graph.js` (weather_server).

The source is a browser script: it fetches a record array once, keeps it in
`temp_parsedResponse`, and re-slices it on every window change with
`arr.slice(arr.length - array_length, arr.length)`.  Window presets are a
`switch` in `updateGraph`; custom windows go through `customTimestamp`, which
uses JavaScript `parseFloat` and sets `array_length = hours*6`.  Per-metric
plot points are built by `unpackData` (a `map`), and the "latest value"
summary reads `unpackData(arr, key)[arr.length-1].y`.

JavaScript numbers are modelled as rationals (`ℚ`) extended with NaN and the
two infinities (`JSNum`) where `parseFloat` can produce them; `Array.slice`
index coercion (ToIntegerOrInfinity, truncation toward zero) and negative
index wrapping are modelled exactly.  `Date.parse` is a host function and is
kept abstract as a parameter `dp : String → Int`.
-/

namespace WeatherGraph

/-- One sample record as delivered by the API: `time` (a date string fed to
`Date.parse`), plus the four numeric metrics keyed `humidity`, `lux`,
`temperature`, `pressure` in the source. -/
structure Record where
  time : String
  humidity : ℚ
  lux : ℚ
  temperature : ℚ
  pressure : ℚ
deriving DecidableEq, Repr

/-- The four metric keys the source passes to `unpackData` / field lookups. -/
inductive Metric where
  | humidity
  | lux
  | temperature
  | pressure
deriving DecidableEq, Repr

/-- `obj[key]` on a record for one of the four metric keys. -/
def Record.get : Record → Metric → ℚ
  | r, Metric.humidity => r.humidity
  | r, Metric.lux => r.lux
  | r, Metric.temperature => r.temperature
  | r, Metric.pressure => r.pressure

/-- One plot point `{x: Date.parse(obj.time), y: obj[key]}` as built by
`unpackData` (graph.js lines 59-61). -/
structure Point where
  x : Int
  y : ℚ
deriving DecidableEq, Repr

/-- `unpackData(array, key)` (graph.js lines 59-61):
`array.map(obj => Object.assign(\x7b\x7d, \x7b x: Date.parse(obj.time), y: obj[key] \x7d))`.
`Date.parse` is abstracted as `dp`. -/
def unpackData (dp : String → Int) (array : List Record) (key : Metric) : List Point :=
  array.map (fun obj => { x := dp obj.time, y := obj.get key })

/-- JavaScript ToIntegerOrInfinity on a finite number: truncation toward zero
(`Int.div` on numerator and denominator is T-division). -/
def toIntTrunc (q : ℚ) : ℤ :=
  Int.tdiv q.num (q.den : ℤ)

/-- `Array.prototype.slice(start, stop)` on a list, for finite numeric
arguments: each index is truncated toward zero, a negative index counts from
the end (clamped below at 0), a positive one is clamped above at the length. -/
def jsSlice {α : Type} (l : List α) (start stop : ℚ) : List α :=
  let len : ℤ := l.length
  let rs : ℤ := toIntTrunc start
  let re : ℤ := toIntTrunc stop
  let k : ℤ := if rs < 0 then max (len + rs) 0 else min rs len
  let e : ℤ := if re < 0 then max (len + re) 0 else min re len
  (l.drop k.toNat).take (e - k).toNat

/-- The windowing slice used on load and on every window change
(graph.js lines 64-66 and 212-213):
`arr.slice(arr.length - array_length, arr.length)`. -/
def sliceWindow {α : Type} (store : List α) (array_length : ℚ) : List α :=
  jsSlice store ((store.length : ℚ) - array_length) (store.length : ℚ)

/-- The render payload: the four named series handed to the chart
(graph.js lines 74-95 and 221-242). -/
structure Payload where
  humidity : List Point
  lux : List Point
  temperature : List Point
  pressure : List Point
deriving DecidableEq, Repr

/-- Build the four series from a (windowed) record list, as both `loadData`
and `updateGraph` do via `unpackData`. -/
def mkPayload (dp : String → Int) (rs : List Record) : Payload :=
  { humidity := unpackData dp rs Metric.humidity
    lux := unpackData dp rs Metric.lux
    temperature := unpackData dp rs Metric.temperature
    pressure := unpackData dp rs Metric.pressure }

/-- The `switch(timestamp)` of `updateGraph` (graph.js lines 194-210): the four
presets set fixed lengths, `case "last"` reassigns `array_length` to itself,
and any other name falls through the switch leaving `array_length` unchanged. -/
def presetLength (timestamp : String) (array_length : ℚ) : ℚ :=
  if timestamp = "QuarterYear" then 12961
  else if timestamp = "Month" then 4321
  else if timestamp = "Week" then 1009
  else if timestamp = "Day" then 145
  else array_length

/-- Observable outcome of one `updateGraph(timestamp)` call (graph.js lines
192-249): the new `array_length`, the payload rebuilt from the fresh slice of
`temp_parsedResponse`, and whether `graph.render()` ran (it always does:
the function unconditionally reaches `clearGraph`, `addContents` and
`graph.render`). -/
structure UpdateResult where
  array_length : ℚ
  payload : Payload
  rendered : Bool
deriving DecidableEq, Repr

/-- `updateGraph(timestamp)` over the full store `temp_parsedResponse`. -/
def updateGraph (dp : String → Int) (store : List Record) (timestamp : String)
    (array_length : ℚ) : UpdateResult :=
  let n := presetLength timestamp array_length
  { array_length := n
    payload := mkPayload dp (sliceWindow store n)
    rendered := true }

/-- The initial `array_length` (graph.js lines 19-25): `12961`, overridden to
`1009` when `options.timeframe == "Week"` and to `4321` when it is `"Month"`. -/
def initialArrayLength (timeframe : String) : ℚ :=
  if timeframe = "Week" then 1009
  else if timeframe = "Month" then 4321
  else 12961

/-- A JavaScript number as `parseFloat` can yield it: NaN, ±Infinity, or a
finite value (modelled as an exact rational). -/
inductive JSNum where
  | nan
  | posInf
  | negInf
  | fin (q : ℚ)
deriving DecidableEq, Repr

/-- Decimal digit value of a character. -/
def digitVal (c : Char) : Nat :=
  c.toNat - 48

/-- Split a character list into its leading run of decimal digits (as digit
values) and the remainder. -/
def takeDigits : List Char → List Nat × List Char
  | [] => ([], [])
  | c :: cs =>
    if c.isDigit then
      let p := takeDigits cs
      (digitVal c :: p.1, p.2)
    else ([], c :: cs)

/-- Natural number denoted by a digit-value list (most significant first). -/
def natOfDigits (ds : List Nat) : Nat :=
  ds.foldl (fun a d => a * 10 + d) 0

/-- Fractional value of the digits after the decimal point. -/
def fracOfDigits (ds : List Nat) : ℚ :=
  (natOfDigits ds : ℚ) / ((10 : ℚ) ^ ds.length)

/-- Strip JavaScript StrWhiteSpace from the front of the input. -/
def skipWs : List Char → List Char
  | [] => []
  | c :: cs =>
    if c = ' ' ∨ c = '\t' ∨ c = '\n' ∨ c = '\r' then skipWs cs
    else c :: cs

/-- Consume an optional sign; `true` means negative. -/
def parseSign : List Char → Bool × List Char
  | '+' :: cs => (false, cs)
  | '-' :: cs => (true, cs)
  | cs => (false, cs)

/-- Does the literal `pat` occur verbatim at the head of `cs`? -/
def matchLit : List Char → List Char → Bool
  | [], _ => true
  | _ :: _, [] => false
  | p :: ps, c :: cs => p = c && matchLit ps cs

/-- Parse an exponent part `[eE] [+-]? digits`; `none` when absent or when no
digit follows (then `parseFloat` keeps only the mantissa, the longest valid
prefix). -/
def parseExp : List Char → Option ℤ
  | [] => none
  | c :: cs =>
    if c = 'e' ∨ c = 'E' then
      let sp := parseSign cs
      let ds := takeDigits sp.2
      if ds.1.isEmpty then none
      else some (if sp.1 then -(natOfDigits ds.1 : ℤ) else (natOfDigits ds.1 : ℤ))
    else none

/-- Scale a mantissa by an optional decimal exponent. -/
def applyExp (q : ℚ) : Option ℤ → ℚ
  | none => q
  | some e => if e < 0 then q / (10 : ℚ) ^ (-e).toNat else q * (10 : ℚ) ^ e.toNat

/-- JavaScript `parseFloat`: skip leading whitespace, take the longest prefix
matching `[+-]? (Infinity | digits [. digits?] | . digits) ([eE][+-]?digits)?`
and return its value; NaN when no digit (and no `Infinity`) is found.
Trailing garbage after the numeric prefix is ignored. -/
def parseFloat (s : String) : JSNum :=
  let cs := skipWs s.data
  let sp := parseSign cs
  if matchLit "Infinity".data sp.2 then
    if sp.1 then JSNum.negInf else JSNum.posInf
  else
    let ip := takeDigits sp.2
    let fp : List Nat × List Char :=
      match ip.2 with
      | '.' :: r => takeDigits r
      | other => ([], other)
    if ip.1.isEmpty ∧ fp.1.isEmpty then JSNum.nan
    else
      let m : ℚ := (natOfDigits ip.1 : ℚ) + fracOfDigits fp.1
      let v : ℚ := applyExp m (parseExp fp.2)
      JSNum.fin (if sp.1 then -v else v)

/-- Outcome of `customTimestamp` (graph.js lines 251-269): silent return on
null/empty input, the "Only use numbers!" alert, the range alert, or success
(which assigns `array_length` and calls `updateGraph('last')`). -/
inductive CustomResult where
  | noOp
  | notANumber
  | outOfRange
  | ok
deriving DecidableEq, Repr

/-- `customTimestamp()` (graph.js lines 251-269) given the prompt result
(`none` models a cancelled prompt, whose `parseFloat` is NaN) and the current
`array_length`; returns the new `array_length` and which branch ran.
On `ok` the source then calls `updateGraph('last')`. -/
def customTimestamp (person : Option String) (array_length : ℚ) : ℚ × CustomResult :=
  let hours : JSNum :=
    match person with
    | none => JSNum.nan
    | some s => parseFloat s
  match hours with
  | JSNum.nan =>
    if person = none ∨ person = some "" then (array_length, CustomResult.noOp)
    else (array_length, CustomResult.notANumber)
  | JSNum.negInf => (array_length, CustomResult.outOfRange)
  | JSNum.posInf => (array_length, CustomResult.outOfRange)
  | JSNum.fin h =>
    if h ≤ 0 ∨ 2160 ≤ h then (array_length, CustomResult.outOfRange)
    else (h * 6, CustomResult.ok)

/-- JavaScript array indexing `l[i]` for an integer index: `undefined`
(`none`) when out of range, in particular for any negative index. -/
def jsIndex {α : Type} (l : List α) (i : ℤ) : Option α :=
  if i < 0 then none else l[i.toNat]?

/-- The latest-value access of `addContents` (graph.js lines 181-184):
`unpackData(arr, key)[arr.length-1].y`, before display rounding.  The `.y`
field access on `undefined` throws in JavaScript; that failure is `none`. -/
def latestValue (dp : String → Int) (records : List Record) (key : Metric) : Option ℚ :=
  (jsIndex (unpackData dp records key) ((records.length : ℤ) - 1)).map Point.y

/-- A concrete `Date.parse` stand-in for witnesses. -/
def dp0 : String → Int :=
  fun _ => 0

/-- Concrete record used in witnesses and counterexamples. -/
def rec0 : Record :=
  { time := "2020-01-01T00:00:00", humidity := 1, lux := 2, temperature := 3, pressure := 4 }

/-- Second concrete record used in witnesses and counterexamples. -/
def rec1 : Record :=
  { time := "2020-01-01T00:10:00", humidity := 5, lux := 6, temperature := 7, pressure := 8 }

/-! ## Helper lemmas -/

/-- Truncation toward zero is the identity on integer-valued rationals. -/
theorem toIntTrunc_intCast (m : ℤ) : toIntTrunc (m : ℚ) = m := by
  simp [toIntTrunc, Rat.num_intCast, Rat.den_intCast, Int.tdiv_one]

/-- The windowing slice, computed: for an integer request `n` on a store of
size `s` it drops `s - n` records when `n ≤ s`, and otherwise (the negative
start index wraps from the end) it drops `2*s - n` records (0 when `n ≥ 2s`). -/
theorem sliceWindow_natCast_eq_drop {α : Type} (store : List α) (n : ℕ) :
    sliceWindow store (n : ℚ) =
      store.drop
        (if n ≤ store.length then store.length - n else 2 * store.length - n) := by
  have h1 : toIntTrunc ((store.length : ℚ) - (n : ℚ)) = (store.length : ℤ) - (n : ℤ) := by
    rw [show ((store.length : ℚ) - (n : ℚ)) = (((store.length : ℤ) - (n : ℤ) : ℤ) : ℚ) by
      push_cast; ring]
    exact toIntTrunc_intCast _
  have h2 : toIntTrunc ((store.length : ℚ)) = (store.length : ℤ) := by
    rw [show ((store.length : ℚ)) = (((store.length : ℤ) : ℤ) : ℚ) by push_cast; ring]
    exact toIntTrunc_intCast _
  simp only [sliceWindow, jsSlice, h1, h2]
  rw [if_neg (by omega : ¬((store.length : ℤ) < 0)), min_self]
  by_cases hn : n ≤ store.length
  · rw [if_pos hn, if_neg (by omega : ¬((store.length : ℤ) - (n : ℤ) < 0))]
    rw [show min ((store.length : ℤ) - (n : ℤ)) (store.length : ℤ)
        = (store.length : ℤ) - (n : ℤ) by omega]
    rw [show ((store.length : ℤ) - (n : ℤ)).toNat = store.length - n by omega]
    apply List.take_of_length_le
    rw [List.length_drop]
    omega
  · rw [if_neg hn, if_pos (by omega : (store.length : ℤ) - (n : ℤ) < 0)]
    rw [show (max ((store.length : ℤ) + ((store.length : ℤ) - (n : ℤ))) 0).toNat
        = 2 * store.length - n by omega]
    apply List.take_of_length_le
    rw [List.length_drop]
    omega

/-- Successful custom-window path: a finite parse inside the open interval
assigns `hours * 6` and reports success. -/
theorem customTimestamp_fin_ok (s : String) (h cur : ℚ)
    (hp : parseFloat s = JSNum.fin h) (h0 : 0 < h) (h1 : h < 2160) :
    customTimestamp (some s) cur = (h * 6, CustomResult.ok) := by
  simp only [customTimestamp, hp]
  rw [if_neg]
  rintro (hc | hc) <;> linarith

/-! ## Claim theorems -/

unseal Rat.add Rat.sub Rat.mul Rat.inv in
/-- C1, counterexample: on a store of size 2 a request for 3 samples returns
only 1 record (`.slice(-1, 2)` wraps the negative start to index 1), not
`min(3, 2) = 2` records, so the slice does not return the whole store when
the request exceeds its size. -/
theorem slice_request_exceeding_size_cex :
    sliceWindow [rec0, rec1] (3 : ℚ) = [rec1] ∧
    (sliceWindow [rec0, rec1] (3 : ℚ)).length ≠ min 3 ([rec0, rec1] : List Record).length := by
  decide

/-- C1, amended: `slice(n)` on a store of size `s` never throws and returns a
suffix (the most recent records, in original order): the last `n` records when
`n ≤ s`, but when `n > s` the negative start index wraps, returning the last
`n - s` records when `s < n < 2s` and the whole store only when `n ≥ 2s`. -/
theorem slice_window_suffix (store : List Record) (n : ℕ) :
    sliceWindow store (n : ℚ) =
      store.drop
        (if n ≤ store.length then store.length - n else 2 * store.length - n) := by
  exact sliceWindow_natCast_eq_drop store n

unseal Rat.add Rat.sub Rat.mul Rat.inv in
/-- C2, counterexample: entering `"0.25"` hours sets `array_length` to
`0.25 * 6 = 3/2`, not `floor(0.25 * 6) = 1`: the code applies no floor. -/
theorem custom_no_floor_cex :
    customTimestamp (some "0.25") 12961 = (3 / 2, CustomResult.ok) ∧
    ((3 : ℚ) / 2) ≠ ((1 : ℚ)) ∧ ⌊(1 / 4 : ℚ) * 6⌋ = 1 := by
  refine ⟨by decide, by norm_num, by norm_num⟩

/-- C2, amended: for every input string parsing to `h` with `0 < h < 2160`,
the custom window sets the sample count to exactly `h * 6` (no floor is
applied, so it can be a non-integer), and a subsequent `'last'` request
reapplies that same value. -/
theorem custom_window_updates_last (s : String) (h cur : ℚ)
    (hp : parseFloat s = JSNum.fin h) (h0 : 0 < h) (h1 : h < 2160) :
    customTimestamp (some s) cur = (h * 6, CustomResult.ok) ∧
    ∀ (dp : String → Int) (store : List Record),
      (updateGraph dp store "last" (h * 6)).array_length = h * 6 := by
  refine ⟨customTimestamp_fin_ok s h cur hp h0 h1, fun dp store => ?_⟩
  simp [updateGraph, presetLength]

unseal Rat.add Rat.sub Rat.mul Rat.inv in
/-- C2, witness: `"24"` parses to 24 hours, inside the valid range; the
sample count becomes `24 * 6` and `'last'` reapplies it. -/
theorem custom_window_updates_last_witness :
    customTimestamp (some "24") 12961 = ((24 : ℚ) * 6, CustomResult.ok) ∧
    (updateGraph dp0 [] "last" ((24 : ℚ) * 6)).array_length = (24 : ℚ) * 6 := by
  have h := custom_window_updates_last "24" 24 12961 (by decide) (by norm_num) (by norm_num)
  exact ⟨h.1, h.2 dp0 []⟩

/-- C3: a parsed hours value `h` with `h ≤ 0` or `h ≥ 2160` hits the
out-of-range alert and `array_length` (what a later `'last'` request reuses)
is left unchanged. -/
theorem custom_out_of_range_unchanged (s : String) (h cur : ℚ)
    (hp : parseFloat s = JSNum.fin h) (hr : h ≤ 0 ∨ 2160 ≤ h) :
    customTimestamp (some s) cur = (cur, CustomResult.outOfRange) := by
  simp only [customTimestamp, hp]
  rw [if_pos hr]

unseal Rat.add Rat.sub Rat.mul Rat.inv in
/-- C3, witness: `"0"` parses to 0, which is rejected as out of range with
the window left at 12961. -/
theorem custom_out_of_range_unchanged_witness :
    customTimestamp (some "0") 12961 = (12961, CustomResult.outOfRange) := by
  exact custom_out_of_range_unchanged "0" 0 12961 (by decide) (by norm_num)

/-- C4: cancelled (`null`) or empty input is a silent no-op leaving
`array_length` unchanged, and any non-empty input parsing to NaN hits the
"Only use numbers!" alert, also leaving `array_length` unchanged. -/
theorem custom_noop_and_nan (cur : ℚ) (s : String)
    (hne : s ≠ "") (hn : parseFloat s = JSNum.nan) :
    customTimestamp none cur = (cur, CustomResult.noOp) ∧
    customTimestamp (some "") cur = (cur, CustomResult.noOp) ∧
    customTimestamp (some s) cur = (cur, CustomResult.notANumber) := by
  refine ⟨by simp [customTimestamp], ?_, ?_⟩
  · have he : parseFloat "" = JSNum.nan := by decide
    simp [customTimestamp, he]
  · simp [customTimestamp, hn, hne]

/-- C4, witness: `"abc"` is non-empty and parses to NaN; the three branches
behave as claimed at `array_length = 12961`. -/
theorem custom_noop_and_nan_witness :
    customTimestamp none 12961 = (12961, CustomResult.noOp) ∧
    customTimestamp (some "") 12961 = (12961, CustomResult.noOp) ∧
    customTimestamp (some "abc") 12961 = (12961, CustomResult.notANumber) := by
  exact custom_noop_and_nan 12961 "abc" (by decide) (by decide)

/-- C5: each of the four presets resolves to its fixed constant
(QuarterYear 12961, Month 4321, Week 1009, Day 145) regardless of the prior
window, so repeated resolutions always agree. -/
theorem preset_constants (dp : String → Int) (store : List Record) (cur cur2 : ℚ) :
    (updateGraph dp store "QuarterYear" cur).array_length = 12961 ∧
    (updateGraph dp store "Month" cur).array_length = 4321 ∧
    (updateGraph dp store "Week" cur).array_length = 1009 ∧
    (updateGraph dp store "Day" cur).array_length = 145 ∧
    (updateGraph dp store "Week" cur).array_length
      = (updateGraph dp store "Week" cur2).array_length := by
  refine ⟨?_, ?_, ?_, ?_, ?_⟩ <;> simp [updateGraph, presetLength]

unseal Rat.add Rat.sub Rat.mul Rat.inv in
/-- C6, counterexample: an unrecognized preset name (`"bogus"`) raises no
error, and far from suppressing the re-render, `updateGraph` still clears and
re-renders the graph (`rendered = true`), only the sample count staying put. -/
theorem invalid_preset_rerenders_cex :
    (updateGraph dp0 [rec0] "bogus" 12961).array_length = 12961 ∧
    (updateGraph dp0 [rec0] "bogus" 12961).rendered = true := by
  decide

/-- C6, amended: an unrecognized preset name falls through the switch with no
error: the sample count is left unchanged, but the graph is still cleared and
re-rendered, with the payload rebuilt from the unchanged sample count. -/
theorem invalid_preset_keeps_length_but_rerenders (dp : String → Int)
    (store : List Record) (ts : String) (cur : ℚ)
    (h1 : ts ≠ "QuarterYear") (h2 : ts ≠ "Month") (h3 : ts ≠ "Week") (h4 : ts ≠ "Day") :
    updateGraph dp store ts cur =
      { array_length := cur
        payload := mkPayload dp (sliceWindow store cur)
        rendered := true } := by
  simp [updateGraph, presetLength, h1, h2, h3, h4]

/-- C6, witness: the amended behavior at the concrete invalid name `"bogus"`
on a one-record store with the QuarterYear window. -/
theorem invalid_preset_keeps_length_but_rerenders_witness :
    updateGraph dp0 [rec0] "bogus" 12961 =
      { array_length := 12961
        payload := mkPayload dp0 (sliceWindow [rec0] 12961)
        rendered := true } := by
  exact invalid_preset_keeps_length_but_rerenders dp0 [rec0] "bogus" 12961
    (by decide) (by decide) (by decide) (by decide)

unseal Rat.add Rat.sub Rat.mul Rat.inv in
/-- C7, counterexample: the initial `array_length` is not always 12961: when
`options.timeframe` is `"Week"` the initial window is 1009. -/
theorem initial_window_week_cex :
    initialArrayLength "Week" = 1009 ∧ initialArrayLength "Week" ≠ 12961 := by
  decide

/-- C7, amended: after a successful initial load the window is the default
QuarterYear count 12961 whenever `options.timeframe` is neither `"Week"`
(which yields 1009) nor `"Month"` (which yields 4321). -/
theorem initial_window_default (tf : String) (hw : tf ≠ "Week") (hm : tf ≠ "Month") :
    initialArrayLength tf = 12961 := by
  simp [initialArrayLength, hw, hm]

/-- C7, witness: any other timeframe value, e.g. `"QuarterYear"`, yields the
default 12961. -/
theorem initial_window_default_witness :
    initialArrayLength "QuarterYear" = 12961 := by
  exact initial_window_default "QuarterYear" (by decide) (by decide)

/-- C8: the latest-value lookup on an empty record list fails (the
`[length-1]` access yields `undefined`, the only failure mode), and on any
non-empty list it returns the `y` value of the last record for the metric. -/
theorem latest_value_spec (dp : String → Int) (key : Metric) :
    latestValue dp [] key = none ∧
    ∀ (rs : List Record) (h : rs ≠ []),
      latestValue dp rs key = some ((rs.getLast h).get key) := by
  constructor
  · simp [latestValue, jsIndex]
  · intro rs h
    have hl : 0 < rs.length := List.length_pos.mpr h
    unfold latestValue jsIndex
    rw [if_neg (by omega : ¬((rs.length : ℤ) - 1 < 0))]
    rw [show ((rs.length : ℤ) - 1).toNat = rs.length - 1 by omega]
    unfold unpackData
    rw [List.getElem?_map, ← List.getLast?_eq_getElem?,
      List.getLast?_eq_getLast_of_ne_nil h]
    rfl

unseal Rat.add Rat.sub Rat.mul Rat.inv in
/-- C8, witness: `latest([], temperature)` fails; on the two-record store the
latest temperature is `rec1`'s value 7. -/
theorem latest_value_spec_witness :
    latestValue dp0 [] Metric.temperature = none ∧
    latestValue dp0 [rec0, rec1] Metric.temperature = some 7 := by
  have h := latest_value_spec dp0 Metric.temperature
  refine ⟨h.1, ?_⟩
  rw [h.2 [rec0, rec1] (by decide)]
  decide

/-- C9: projecting records to plot points is deterministic (it is a pure
function of its input), and for each metric it yields one point
`{x := Date.parse(time), y := record[metric]}` per record, in input order
and with no record dropped (the output has the input's length and the point
at each index comes from the record at that index). -/
theorem project_pointwise (dp : String → Int) (rs : List Record) (key : Metric) :
    unpackData dp rs key = unpackData dp rs key ∧
    (unpackData dp rs key).length = rs.length ∧
    ∀ i : ℕ, (unpackData dp rs key)[i]? =
      rs[i]?.map (fun r => ({ x := dp r.time, y := r.get key } : Point)) := by
  refine ⟨rfl, by simp [unpackData], fun i => ?_⟩
  simp [unpackData, List.getElem?_map]

/-- C10: an input whose leading prefix parses as `h` with `0 < h < 2160` is
accepted even when followed by trailing non-numeric text: `parseFloat` keeps
the numeric prefix, and the sample count becomes `h * 6` exactly as for the
bare number. -/
theorem trailing_text_accepted (s : String) (h cur : ℚ)
    (hp : parseFloat s = JSNum.fin h) (h0 : 0 < h) (h1 : h < 2160) :
    customTimestamp (some s) cur = (h * 6, CustomResult.ok) := by
  exact customTimestamp_fin_ok s h cur hp h0 h1

unseal Rat.add Rat.sub Rat.mul Rat.inv in
/-- C10, witness: `"12abc"` parses to 12 and is accepted, setting the sample
count to `12 * 6`. -/
theorem trailing_text_accepted_witness :
    customTimestamp (some "12abc") 12961 = ((12 : ℚ) * 6, CustomResult.ok) := by
  exact trailing_text_accepted "12abc" 12 12961 (by decide) (by norm_num) (by norm_num)

end WeatherGraph
